import Mathlib

/-!
Shallow embedding of the bronze-layer alert pipeline
(`src/models/alerts.py`, `src/processing/bronze_processor.py`).

Modelling conventions:
* Python values occurring in raw alert dictionaries are embedded as `PyVal`;
  a Python `dict` is an association list (keys unique in practice, lookup is
  first-match, like a dict).  `PyVal.obj` stands for a Python object that is
  not JSON-serializable (e.g. a `set`).
* Python `float`s are embedded as `ℚ`: the program only compares, copies and
  adds constants to them, so no floating-point rounding is observable in the
  verified claims.  Pydantic's lax string-to-number coercion is not modelled:
  numeric fields accept `int`/`float` values, `str` fields accept strings.
* Fallible Python code (pydantic validation, `json.dumps`, writes) is embedded
  as `Except String _`; an `.error` value models a raised exception.
* `datetime` objects are embedded as a calendar date plus an opaque time
  string, which is all the pipeline observes of them.
-/

namespace AGD

/-- Python value as found in a raw alert dictionary. -/
inductive PyVal where
  | null
  | bool (b : Bool)
  | int (n : Int)
  | float (q : ℚ)
  | str (s : String)
  | list (xs : List PyVal)
  | dict (kvs : List (String × PyVal))
  | obj

/-- Raw record: a Python dict from field name to value. -/
abbrev RawRecord := List (String × PyVal)

/-- Dict lookup, first match wins (Python dict keys are unique). -/
def lookup : RawRecord → String → Option PyVal
  | [], _ => Option.none
  | (k', v) :: rest, k => if k' = k then some v else lookup rest k

/-- Replace (or add) the value stored under key `k`, like `d[k] = v`. -/
def setKey (r : RawRecord) (k : String) (v : PyVal) : RawRecord :=
  r.filter (fun p => p.1 ≠ k) ++ [(k, v)]

/-- Numeric coercion used by pydantic `float` fields: accepts float and int. -/
def asNum : PyVal → Option ℚ
  | .float q => some q
  | .int n => some (n : ℚ)
  | _ => Option.none

/-- Required numeric field: missing, `None` or non-numeric values fail. -/
def reqNum (r : RawRecord) (k : String) : Except String ℚ :=
  match lookup r k with
  | some v =>
    match asNum v with
    | some q => .ok q
    | Option.none => .error (k ++ ": value is not a valid number")
  | Option.none => .error (k ++ ": field required")

/-- Required integer field. -/
def reqInt (r : RawRecord) (k : String) : Except String Int :=
  match lookup r k with
  | some (.int n) => .ok n
  | some _ => .error (k ++ ": value is not a valid integer")
  | Option.none => .error (k ++ ": field required")

/-- Required string field. -/
def reqStr (r : RawRecord) (k : String) : Except String String :=
  match lookup r k with
  | some (.str s) => .ok s
  | some _ => .error (k ++ ": value is not a valid string")
  | Option.none => .error (k ++ ": field required")

/-- Optional numeric field (`float | None = None`). -/
def optNum (r : RawRecord) (k : String) : Except String (Option ℚ) :=
  match lookup r k with
  | Option.none => .ok Option.none
  | some .null => .ok Option.none
  | some v =>
    match asNum v with
    | some q => .ok (some q)
    | Option.none => .error (k ++ ": value is not a valid number")

/-- Optional integer field (`int | None = None`). -/
def optInt (r : RawRecord) (k : String) : Except String (Option Int) :=
  match lookup r k with
  | Option.none => .ok Option.none
  | some .null => .ok Option.none
  | some (.int n) => .ok (some n)
  | some _ => .error (k ++ ": value is not a valid integer")

/-- Optional string field (`str | None = None`). -/
def optStr (r : RawRecord) (k : String) : Except String (Option String) :=
  match lookup r k with
  | Option.none => .ok Option.none
  | some .null => .ok Option.none
  | some (.str s) => .ok (some s)
  | some _ => .error (k ++ ": value is not a valid string")

/-- Constraint check: models a pydantic `Field` bound raising on violation. -/
def check (p : Prop) [Decidable p] (msg : String) : Except String Unit :=
  if p then .ok () else .error msg

/-- Every element of `prv_candidates` must itself be a dict
    (`list[dict[str, Any]]`). -/
def asDicts : List PyVal → Except String (List RawRecord)
  | [] => .ok []
  | .dict d :: rest => (asDicts rest).map (d :: ·)
  | _ :: _ => .error "prv_candidates: value is not a valid dict"

/-- Optional `prv_candidates` field (`list[dict[str, Any]] | None = None`). -/
def getPrvList (r : RawRecord) : Except String (Option (List RawRecord)) :=
  match lookup r "prv_candidates" with
  | Option.none => .ok Option.none
  | some .null => .ok Option.none
  | some (.list xs) => (asDicts xs).map some
  | some _ => .error "prv_candidates: value is not a valid list"

/-- Field names (aliases included) recognised by the `ZTFAlert` schema. -/
def knownKeys : List String :=
  ["objectId", "candid", "ra", "dec", "magpsf", "sigmapsf", "fid", "jd",
   "diffmaglim", "rb", "drb", "prv_candidates", "v:fink_class", "d:cdsxmatch"]

/-- Keys not recognised by the schema are retained (`extra="allow"`). -/
def extrasOf (r : RawRecord) : RawRecord :=
  r.filter (fun p => !(knownKeys.contains p.1))

/-- Historical detection from the alert's light-curve history
    (`PreviousCandidate`, `extra="allow"`). -/
structure PreviousCandidate where
  jd : ℚ
  fid : Int
  magpsf : Option ℚ
  sigmapsf : Option ℚ
  diffmaglim : Option ℚ
  isdiffpos : Option String
  extra : RawRecord

/-- Keys recognised by `PreviousCandidate`. -/
def prvKnownKeys : List String :=
  ["jd", "fid", "magpsf", "sigmapsf", "diffmaglim", "isdiffpos"]

/-- Validation of one history entry: `PreviousCandidate(**prv)`.
    Required: `jd` (float), `fid` (int, `ge=1, le=3`); optional: `magpsf`,
    `sigmapsf` (`ge=0`), `diffmaglim`, `isdiffpos`. -/
def PreviousCandidate.validate (d : RawRecord) : Except String PreviousCandidate := do
  let jd ← reqNum d "jd"
  let fid ← reqInt d "fid"
  let _ ← check (1 ≤ fid ∧ fid ≤ 3) "fid: out of range"
  let magpsf ← optNum d "magpsf"
  let sigmapsf ← optNum d "sigmapsf"
  let _ ← check (∀ q ∈ sigmapsf, 0 ≤ q) "sigmapsf: out of range"
  let diffmaglim ← optNum d "diffmaglim"
  let isdiffpos ← optStr d "isdiffpos"
  .ok ⟨jd, fid, magpsf, sigmapsf, diffmaglim, isdiffpos,
       d.filter (fun p => !(prvKnownKeys.contains p.1))⟩

/-- Raw ZTF alert structure (`ZTFAlert`, `extra="allow"`).  The two broker
    fields are populated through their aliases `v:fink_class`/`d:cdsxmatch`. -/
structure ZTFAlert where
  objectId : String
  candid : Option Int
  ra : ℚ
  dec : ℚ
  magpsf : ℚ
  sigmapsf : ℚ
  fid : Int
  jd : ℚ
  diffmaglim : Option ℚ
  rb : Option ℚ
  drb : Option ℚ
  prv_candidates : Option (List RawRecord)
  v__fink_class : Option String
  d__cdsxmatch : Option String
  extra : RawRecord

/-- Validation of a raw record against the `ZTFAlert` schema
    (`ZTFAlert(**raw_alert)`).  Field constraints are exactly the pydantic
    `Field` declarations; the custom `objectId` validator only passes the
    value through.  Unknown keys are retained in `extra`. -/
def ZTFAlert.validate (r : RawRecord) : Except String ZTFAlert := do
  let objectId ← reqStr r "objectId"
  let _ ← check (3 ≤ objectId.length) "objectId: too short"
  let candid ← optInt r "candid"
  let ra ← reqNum r "ra"
  let _ ← check (0 ≤ ra ∧ ra < 360) "ra: out of range"
  let dec ← reqNum r "dec"
  let _ ← check (-90 ≤ dec ∧ dec ≤ 90) "dec: out of range"
  let magpsf ← reqNum r "magpsf"
  let sigmapsf ← reqNum r "sigmapsf"
  let _ ← check (0 ≤ sigmapsf) "sigmapsf: out of range"
  let fid ← reqInt r "fid"
  let _ ← check (1 ≤ fid ∧ fid ≤ 3) "fid: out of range"
  let jd ← reqNum r "jd"
  let _ ← check (2400000 < jd) "jd: out of range"
  let diffmaglim ← optNum r "diffmaglim"
  let rb ← optNum r "rb"
  let _ ← check (∀ q ∈ rb, 0 ≤ q ∧ q ≤ 1) "rb: out of range"
  let drb ← optNum r "drb"
  let _ ← check (∀ q ∈ drb, 0 ≤ q ∧ q ≤ 1) "drb: out of range"
  let prv ← getPrvList r
  let vfink ← optStr r "v:fink_class"
  let dcds ← optStr r "d:cdsxmatch"
  .ok ⟨objectId, candid, ra, dec, magpsf, sigmapsf, fid, jd, diffmaglim,
       rb, drb, prv, vfink, dcds, extrasOf r⟩

/-- Human-readable filter name: `{1: "g", 2: "r", 3: "i"}.get(fid, "unknown")`. -/
def ZTFAlert.filter_name (a : ZTFAlert) : String :=
  if a.fid = 1 then "g" else if a.fid = 2 then "r" else if a.fid = 3 then "i"
  else "unknown"

/-- Parse previous candidates into validated models
    (`ZTFAlert.get_previous_candidates`): `if not self.prv_candidates` short
    circuit, then a loop appending each entry that validates and skipping,
    with `except: continue`, each entry that does not. -/
def ZTFAlert.get_previous_candidates (a : ZTFAlert) : List PreviousCandidate :=
  match a.prv_candidates with
  | Option.none => []
  | some l => if l.isEmpty then [] else go l
where
  go : List RawRecord → List PreviousCandidate
  | [] => []
  | d :: rest =>
    match PreviousCandidate.validate d with
    | .ok p => p :: go rest
    | .error _ => go rest

/-! Dates and JSON serialization. -/

/-- Calendar date (proleptic Gregorian), as produced by `datetime`. -/
structure Date where
  year : Nat
  month : Nat
  day : Nat
deriving DecidableEq, Repr

/-- A `datetime`: all the pipeline observes of one is its calendar date and
    an opaque time-of-day string used by `isoformat`. -/
structure Datetime where
  date : Date
  time : String
deriving DecidableEq, Repr

/-- Left-pad a number with zeroes to `width` digits. -/
def padNat (width n : Nat) : String :=
  let s := toString n
  String.mk (List.replicate (width - s.length) '0') ++ s

/-- Format a date as `strftime("%Y-%m-%d")`. -/
def formatDate (d : Date) : String :=
  padNat 4 d.year ++ "-" ++ padNat 2 d.month ++ "-" ++ padNat 2 d.day

/-- ISO format of a datetime (`isoformat()`). -/
def Datetime.isoformat (t : Datetime) : String :=
  formatDate t.date ++ "T" ++ t.time

/-- Julian day number of a JD instant: `⌊jd + 1/2⌋`, computed on the
    numerator and denominator so that it evaluates by kernel reduction
    (see `jdnOf_eq_floor`). -/
def jdnOf (jd : ℚ) : Int :=
  (2 * jd.num + jd.den).fdiv (2 * (jd.den : Int))

/-- Convert a Julian date to the calendar date of its UTC instant, as
    `astropy.time.Time(jd, format="jd").datetime` does; `Option.none` models
    the conversion raising (the resulting year falls outside `datetime`'s
    supported range 1..9999).  The JDN-to-Gregorian step is the standard
    Fliegel-Van Flandern integer algorithm. -/
def jdToDate (jd : ℚ) : Option Date :=
  let jdnI : Int := jdnOf jd
  if jdnI < 0 then Option.none else
  let jdn := jdnI.toNat
  let a := jdn + 32044
  let b := (4 * a + 3) / 146097
  let c := a - 146097 * b / 4
  let d := (4 * c + 3) / 1461
  let e := c - 1461 * d / 4
  let m := (5 * e + 2) / 153
  let day := e - (153 * m + 2) / 5 + 1
  let month := m + 3 - 12 * (m / 10)
  let y4800 := 100 * b + d + m / 10
  if 4801 ≤ y4800 ∧ y4800 ≤ 14799 then some ⟨y4800 - 4800, month, day⟩
  else Option.none

mutual
/-- Whether `json.dumps` accepts the value (`PyVal.obj` is the embedded
    non-serializable object and is rejected; containers are serializable
    when all their members are). -/
def serializable : PyVal → Bool
  | .null => true
  | .bool _ => true
  | .int _ => true
  | .float _ => true
  | .str _ => true
  | .list xs => serializableList xs
  | .dict kvs => serializableFields kvs
  | .obj => false
/-- Serializability of a JSON array's elements. -/
def serializableList : List PyVal → Bool
  | [] => true
  | x :: xs => serializable x && serializableList xs
/-- Serializability of a JSON object's values. -/
def serializableFields : List (String × PyVal) → Bool
  | [] => true
  | (_, v) :: kvs => serializable v && serializableFields kvs
end

/-- Escape a character inside a JSON string literal. -/
def escapeChar (c : Char) : String :=
  if c = '\\' then "\\\\" else if c = '"' then "\\\"" else String.singleton c

/-- Render a JSON string literal. -/
def jsonEscape (s : String) : String :=
  "\"" ++ String.join (s.toList.map escapeChar) ++ "\""

mutual
/-- Rendering of a serializable value, following `json.dumps` with default
    separators (rationals stand in for Python float literals). -/
def encodeJson : PyVal → String
  | .null => "null"
  | .bool true => "true"
  | .bool false => "false"
  | .int n => toString n
  | .float q =>
    toString q.num ++ (if q.den = 1 then "" else "/" ++ toString q.den)
  | .str s => jsonEscape s
  | .list xs => "[" ++ encodeJsonList xs ++ "]"
  | .dict kvs => "\x7b" ++ encodeJsonFields kvs ++ "\x7d"
  | .obj => ""
/-- Comma-separated rendering of array elements. -/
def encodeJsonList : List PyVal → String
  | [] => ""
  | [x] => encodeJson x
  | x :: xs => encodeJson x ++ ", " ++ encodeJsonList xs
/-- Comma-separated rendering of object entries. -/
def encodeJsonFields : List (String × PyVal) → String
  | [] => ""
  | [(k, v)] => jsonEscape k ++ ": " ++ encodeJson v
  | (k, v) :: kvs => jsonEscape k ++ ": " ++ encodeJson v ++ ", " ++ encodeJsonFields kvs
end

/-- Model of `json.dumps`: raises (`.error`) exactly on values containing a
    non-serializable member, otherwise returns the rendered text. -/
def jsonDumps (v : PyVal) : Except String String :=
  if serializable v then .ok (encodeJson v)
  else .error "Object is not JSON serializable"

/-! The enriched record (`BronzeAlert`) and its flattening. -/

/-- Bronze layer alert with ingestion metadata (`BronzeAlert`,
    `extra="forbid"`).  `observation_date` is stored, having been computed by
    the `compute_derived_fields` model validator at construction. -/
structure BronzeAlert where
  alert : ZTFAlert
  ingestion_timestamp : Datetime
  source : String
  source_version : Option String
  raw_payload : Option RawRecord
  processing_id : Option String
  observation_date : String

/-- Construction of a `BronzeAlert` with `observation_date` left to the
    `compute_derived_fields` validator: the alert's JD is converted to a
    `YYYY-MM-DD` string, falling back to the ingestion date when the
    conversion fails.  `now` is the `datetime.utcnow()` default for
    `ingestion_timestamp`. -/
def BronzeAlert.create (alert : ZTFAlert) (now : Datetime) (source : String)
    (source_version : Option String) (raw_payload : Option RawRecord)
    (processing_id : Option String) : BronzeAlert :=
  { alert, ingestion_timestamp := now, source, source_version, raw_payload,
    processing_id,
    observation_date :=
      match jdToDate alert.jd with
      | some d => formatDate d
      | Option.none => formatDate now.date }

/-- Flat row produced by `BronzeAlert.to_flat_dict` for columnar storage. -/
structure FlatRow where
  object_id : String
  candidate_id : Option Int
  ra : ℚ
  dec : ℚ
  magpsf : ℚ
  sigmapsf : ℚ
  filter_id : Int
  filter_name : String
  jd : ℚ
  mjd : ℚ
  observation_date : String
  diffmaglim : Option ℚ
  rb_score : Option ℚ
  drb_score : Option ℚ
  fink_class : Option String
  cds_xmatch : Option String
  ingestion_timestamp : String
  source : String
  source_version : Option String
  processing_id : Option String
  raw_payload_json : Option String
  num_previous_detections : Nat

/-- Flattening (`BronzeAlert.to_flat_dict`): builds the storage row;
    `raw_payload_json` is `json.dumps(self.raw_payload) if self.raw_payload
    else None`, so an unserializable payload makes the whole call raise
    (modelled by `.error`), while an absent or empty payload stores null.
    `num_previous_detections` is `len(self.alert.prv_candidates or [])`. -/
def BronzeAlert.to_flat_dict (b : BronzeAlert) : Except String FlatRow :=
  match
    (match b.raw_payload with
     | some p => if p.isEmpty then .ok Option.none else (jsonDumps (.dict p)).map some
     | Option.none => .ok Option.none : Except String (Option String)) with
  | .error e => .error e
  | .ok rpj =>
    .ok { object_id := b.alert.objectId
          candidate_id := b.alert.candid
          ra := b.alert.ra
          dec := b.alert.dec
          magpsf := b.alert.magpsf
          sigmapsf := b.alert.sigmapsf
          filter_id := b.alert.fid
          filter_name := b.alert.filter_name
          jd := b.alert.jd
          mjd := b.alert.jd - 2400000.5
          observation_date := b.observation_date
          diffmaglim := b.alert.diffmaglim
          rb_score := b.alert.rb
          drb_score := b.alert.drb
          fink_class := b.alert.v__fink_class
          cds_xmatch := b.alert.d__cdsxmatch
          ingestion_timestamp := b.ingestion_timestamp.isoformat
          source := b.source
          source_version := b.source_version
          processing_id := b.processing_id
          raw_payload_json := rpj
          num_previous_detections := (b.alert.prv_candidates.getD []).length }

/-- A batch of alerts for bulk processing (`AlertBatch`). -/
structure AlertBatch where
  alerts : List BronzeAlert
  batch_id : String
  created_at : Datetime
  source_query : Option RawRecord

/-- Number of alerts in the batch (`AlertBatch.count`). -/
def AlertBatch.count (b : AlertBatch) : Nat := b.alerts.length

/-! The bronze processor (`BronzeProcessor`). -/

/-- Schema validation mode (`ProcessingSettings.schema_validation_mode`). -/
inductive ValidationMode where
  | strict
  | warn
  | ignore
deriving DecidableEq, Repr

/-- File format choice (`StorageSettings.file_format`). -/
inductive FileFormat where
  | parquet
  | delta
  | json
deriving DecidableEq, Repr

/-- The slice of the configuration the processor consumes: the resolved
    bronze output path (`storage.bronze_full_path`), the file format, and the
    validation mode. -/
structure Config where
  bronzePath : String
  file_format : FileFormat
  mode : ValidationMode

/-- One collected validation failure (the dict appended to
    `validation_errors`): index, error text, and the raw record's `objectId`
    value with `"unknown"` as default. -/
structure ValFailure where
  index : Nat
  error : String
  alert_id : PyVal

/-- Pipeline-level error (`BronzeProcessingError`), carrying the message and
    the `details={"errors": validation_errors[:10]}` payload. -/
structure BronzeProcessingError where
  message : String
  errors : List ValFailure

/-- Storage-level error (`WriteError`), carrying the message and the
    `details={"batch_id": ..., "error": ...}` payload. -/
structure WriteError where
  message : String
  batch_id : String
  cause : String

/-- Process a single raw alert (`_process_single_alert`): validate the
    `ZTFAlert` schema and wrap the result in a `BronzeAlert` whose
    `raw_payload` is the original record; any failure is reported as a
    schema validation error. -/
def processSingleAlert (raw : RawRecord) (source : String)
    (source_version : Option String) (processing_id : String)
    (now : Datetime) : Except String BronzeAlert :=
  (ZTFAlert.validate raw).map fun a =>
    BronzeAlert.create a now source source_version (some raw) (some processing_id)

/-- The `objectId` reported for a failed record:
    `raw_alert.get("objectId", "unknown")`. -/
def alertIdOf (raw : RawRecord) : PyVal :=
  (lookup raw "objectId").getD (.str "unknown")

/-- The processing loop of `process_alerts`: walk the raw records at
    increasing indices, appending successes to the first list and collected
    failures to the second; one failure never aborts the remaining records. -/
def collectAlerts (source : String) (source_version : Option String)
    (processing_id : String) (now : Datetime) :
    Nat → List RawRecord → List BronzeAlert × List ValFailure
  | _, [] => ([], [])
  | idx, raw :: rest =>
    let tail := collectAlerts source source_version processing_id now (idx + 1) rest
    match processSingleAlert raw source source_version processing_id now with
    | .ok b => (b :: tail.1, tail.2)
    | .error e => (tail.1, ⟨idx, e, alertIdOf raw⟩ :: tail.2)

/-- Batch validation (`BronzeProcessor.process_alerts`).  `genId` stands for
    the generated `_generate_batch_id()` value used when no `batch_id` is
    supplied; `now` is the wall clock (ingestion and creation timestamps).
    Under `strict` mode, if there were failures and no record succeeded, a
    `BronzeProcessingError` is raised; otherwise the successes are returned
    as an `AlertBatch` whose provenance records the source and the original
    record count. -/
def process_alerts (cfg : Config) (raw_alerts : List RawRecord)
    (source : String) (source_version : Option String)
    (batch_id : Option String) (genId : String) (now : Datetime) :
    Except BronzeProcessingError AlertBatch :=
  let bid := batch_id.getD genId
  let res := collectAlerts source source_version bid now 0 raw_alerts
  if ¬ res.2.isEmpty ∧ cfg.mode = .strict ∧ res.1.isEmpty then
    .error ⟨"All alerts failed validation", res.2.take 10⟩
  else
    .ok ⟨res.1, bid, now,
         some [("source", .str source), ("count", .int raw_alerts.length)]⟩

/-! Storage model: a directory set plus a list of written files.  A file
    holds either well-formed rows or opaque corrupt content (the latter makes
    a read of it raise). -/

/-- Content of one stored file. -/
inductive FileData where
  | rows (rs : List FlatRow)
  | corrupt

/-- One stored file: the directory it lives in and its content. -/
structure StoredFile where
  dir : String
  name : String
  data : FileData

/-- The storage collaborator's state. -/
structure Storage where
  dirs : List String
  files : List StoredFile

/-- Whether the output location exists (`self.output_path.exists()`). -/
def Storage.pathExists (st : Storage) (p : String) : Bool :=
  st.dirs.contains p

/-- String prefix test on the character lists (evaluation-friendly
    equivalent of `startswith`). -/
def strStarts (s p : String) : Bool :=
  decide (s.toList.take p.toList.length = p.toList)

/-- String suffix test on the character lists (evaluation-friendly
    equivalent of `endswith`). -/
def strEnds (s p : String) : Bool :=
  decide (s.toList.reverse.take p.toList.length = p.toList.reverse)

/-- Files living under a directory (partition subdirectories included). -/
def Storage.filesUnder (st : Storage) (p : String) : List StoredFile :=
  st.files.filter (fun f => strStarts f.dir p)

/-- `mkdir(parents=True, exist_ok=True)`. -/
def Storage.mkdir (st : Storage) (p : String) : Storage :=
  if st.dirs.contains p then st else { st with dirs := p :: st.dirs }

/-- Distinct partition values appearing in a batch's rows. -/
def partitionValues (rows : List FlatRow) : List String :=
  (rows.map (·.observation_date)).dedup

/-- Partitioned parquet write (`pq.write_to_dataset` with
    `existing_data_behavior="overwrite_or_ignore"`): each partition gains a
    freshly named file holding that partition's rows; pre-existing files of
    other batches are left in place. -/
def writePartitioned (st : Storage) (root : String) (rows : List FlatRow)
    (batch_id : String) : Storage :=
  { st with
    files := st.files ++ (partitionValues rows).map fun d =>
      ⟨root ++ "/observation_date=" ++ d, "part-" ++ batch_id,
       .rows (rows.filter (·.observation_date = d))⟩ }

/-- Timestamp suffix used in single-file names
    (`datetime.utcnow().strftime("%Y%m%d_%H%M%S")`, opaque here). -/
def fileStamp (now : Datetime) : String :=
  formatDate now.date ++ "_" ++ now.time

/-- Parquet write (`_write_parquet`): partitioned when requested (the
    `observation_date` column is always present in the flattened frame),
    otherwise a single uniquely named file per batch. -/
def writeParquet (st : Storage) (cfg : Config) (rows : List FlatRow)
    (batch_id : String) (now : Datetime) (partition_by_date : Bool) :
    String × Storage :=
  if partition_by_date then
    (cfg.bronzePath, writePartitioned st cfg.bronzePath rows batch_id)
  else
    let fname := "alerts_" ++ batch_id ++ "_" ++ fileStamp now ++ ".parquet"
    (cfg.bronzePath ++ "/" ++ fname,
     { st with files := st.files ++ [⟨cfg.bronzePath, fname, .rows rows⟩] })

/-- JSON write (`_write_json`): one file per batch, never partitioned. -/
def writeJson (st : Storage) (cfg : Config) (rows : List FlatRow)
    (batch_id : String) (now : Datetime) : String × Storage :=
  let fname := "alerts_" ++ batch_id ++ "_" ++ fileStamp now ++ ".json"
  (cfg.bronzePath ++ "/" ++ fname,
   { st with files := st.files ++ [⟨cfg.bronzePath, fname, .rows rows⟩] })

/-- Flattening of a whole batch, the list comprehension
    `[alert.to_flat_dict() for alert in batch.alerts]`: the first raising
    record aborts the comprehension and propagates its exception. -/
def flattenAll : List BronzeAlert → Except String (List FlatRow)
  | [] => .ok []
  | b :: bs => do
    let row ← b.to_flat_dict
    let rest ← flattenAll bs
    .ok (row :: rest)

/-- Partitioned write (`BronzeProcessor.write_batch`).  An empty batch is a
    no-op returning the configured output path.  Otherwise the directory is
    created, every record is flattened (an exception anywhere, e.g. an
    unserializable audit payload, is re-raised as a `WriteError` carrying the
    batch id and cause), and the rows are written in the configured format
    (`delta` falls back to the parquet writer). -/
def write_batch (st : Storage) (cfg : Config) (batch : AlertBatch)
    (now : Datetime) (partition_by_date : Bool := true) :
    Except WriteError (String × Storage) :=
  if batch.count = 0 then .ok (cfg.bronzePath, st)
  else
    match flattenAll batch.alerts with
    | .error e =>
      .error ⟨"Failed to write batch " ++ batch.batch_id ++ ": " ++ e,
              batch.batch_id, e⟩
    | .ok rows =>
      let st1 := st.mkdir cfg.bronzePath
      match cfg.file_format with
      | .parquet => .ok (writeParquet st1 cfg rows batch.batch_id now partition_by_date)
      | .json => .ok (writeJson st1 cfg rows batch.batch_id now)
      | .delta => .ok (writeParquet st1 cfg rows batch.batch_id now partition_by_date)

/-- Rows of a file; a corrupt file raises on read. -/
def FileData.read : FileData → Except String (List FlatRow)
  | .rows rs => .ok rs
  | .corrupt => .error "corrupt file"

/-- Read every file in the list, concatenating their rows; any corrupt file
    makes the whole read raise, as `pd.read_parquet`/`pd.read_json` would. -/
def readFiles : List StoredFile → Except String (List FlatRow)
  | [] => .ok []
  | f :: fs => do
    let rs ← f.data.read
    let rest ← readFiles fs
    .ok (rs ++ rest)

/-- The fallible part of `read_bronze_data` (the body of its `try`):
    parquet reads the whole dataset with an optional
    `observation_date` filter; any other format globs `*.json` files,
    returning empty when there are none, and filters after concatenation. -/
def readRaw (st : Storage) (cfg : Config) (observation_date : Option String) :
    Except String (List FlatRow) :=
  if cfg.file_format = .parquet then do
    let rows ← readFiles (st.filesUnder cfg.bronzePath)
    match observation_date with
    | some d => .ok (rows.filter (·.observation_date = d))
    | Option.none => .ok rows
  else
    let jsonFiles := (st.filesUnder cfg.bronzePath).filter
      (fun f => strEnds f.name ".json")
    if jsonFiles.isEmpty then .ok []
    else do
      let rows ← readFiles jsonFiles
      match observation_date with
      | some d => .ok (rows.filter (·.observation_date = d))
      | Option.none => .ok rows

/-- Read-back (`BronzeProcessor.read_bronze_data`).  Never raises: a missing
    output location yields no rows, and any failure inside the read is
    swallowed (logged) and yields no rows.  `if limit:` is Python truthiness,
    so `None` and `0` both mean no limit. -/
def read_bronze_data (st : Storage) (cfg : Config)
    (observation_date : Option String) (limit : Option Nat) : List FlatRow :=
  if ¬ st.pathExists cfg.bronzePath then []
  else
    match readRaw st cfg observation_date with
    | .error _ => []
    | .ok rows =>
      match limit with
      | some n => if n ≠ 0 then rows.take n else rows
      | Option.none => rows

/-! General helper lemmas. -/

theorem check_eq_ok {p : Prop} [Decidable p] {msg : String} {u : Unit} :
    check p msg = .ok u ↔ p := by
  unfold check; split <;> simp_all

theorem bind_eq_ok {α β : Type} {e : Except String α} {f : α → Except String β}
    {b : β} : (e >>= f) = .ok b ↔ ∃ a, e = .ok a ∧ f a = .ok b := by
  cases e <;> simp [Bind.bind, Except.bind]

theorem isOk_iff {ε α : Type} {e : Except ε α} :
    e.isOk = true ↔ ∃ a, e = .ok a := by
  cases e <;> simp [Except.isOk, Except.toBool]

theorem isOk_false_iff {ε α : Type} {e : Except ε α} :
    e.isOk = false ↔ ∃ msg, e = .error msg := by
  cases e <;> simp [Except.isOk, Except.toBool]

theorem lookup_filter {p : String × PyVal → Bool} {r : RawRecord} {k : String}
    (hp : ∀ v, p (k, v) = true) : lookup (r.filter p) k = lookup r k := by
  induction r with
  | nil => rfl
  | cons hd tl ih =>
    obtain ⟨k', v'⟩ := hd
    by_cases hk : k' = k
    · subst hk
      simp [List.filter, hp v', lookup]
    · simp only [List.filter]
      cases hv : p (k', v') <;> simp [lookup, hk, ih]

theorem lookup_append {l₁ l₂ : RawRecord} {k : String} :
    lookup (l₁ ++ l₂) k =
      match lookup l₁ k with
      | some v => some v
      | Option.none => lookup l₂ k := by
  induction l₁ with
  | nil => simp [lookup]
  | cons hd tl ih =>
    obtain ⟨k', v'⟩ := hd
    by_cases hk : k' = k <;> simp [lookup, hk, ih]

theorem lookup_filter_self {r : RawRecord} {k : String} :
    lookup (r.filter (fun p => p.1 ≠ k)) k = Option.none := by
  induction r with
  | nil => rfl
  | cons hd tl ih =>
    obtain ⟨k', v'⟩ := hd
    simp only [List.filter, ne_eq, decide_not] at ih ⊢
    by_cases hk : k' = k
    · subst hk; simpa using ih
    · simpa [hk, lookup] using ih

theorem lookup_setKey_self {r : RawRecord} {k : String} {v : PyVal} :
    lookup (setKey r k v) k = some v := by
  unfold setKey
  rw [lookup_append, lookup_filter_self]
  simp [lookup]

theorem lookup_setKey_ne {r : RawRecord} {k k' : String} {v : PyVal}
    (h : k' ≠ k) : lookup (setKey r k v) k' = lookup r k' := by
  unfold setKey
  rw [lookup_append, lookup_filter (p := fun p => p.1 ≠ k) (by simp [h])]
  cases hv : lookup r k' <;> simp [lookup, Ne.symm h, hv]

theorem asDicts_map_dict (ds : List RawRecord) :
    asDicts (ds.map PyVal.dict) = .ok ds := by
  induction ds with
  | nil => rfl
  | cons hd tl ih => simp [asDicts, ih, Except.map]

/-! Characterization of `ZTFAlert.validate`. -/

theorem ZTFAlert.validate_ok_iff {r : RawRecord} {a : ZTFAlert} :
    ZTFAlert.validate r = .ok a ↔
      reqStr r "objectId" = .ok a.objectId ∧ 3 ≤ a.objectId.length ∧
      optInt r "candid" = .ok a.candid ∧
      reqNum r "ra" = .ok a.ra ∧ (0 ≤ a.ra ∧ a.ra < 360) ∧
      reqNum r "dec" = .ok a.dec ∧ (-90 ≤ a.dec ∧ a.dec ≤ 90) ∧
      reqNum r "magpsf" = .ok a.magpsf ∧
      reqNum r "sigmapsf" = .ok a.sigmapsf ∧ 0 ≤ a.sigmapsf ∧
      reqInt r "fid" = .ok a.fid ∧ (1 ≤ a.fid ∧ a.fid ≤ 3) ∧
      reqNum r "jd" = .ok a.jd ∧ 2400000 < a.jd ∧
      optNum r "diffmaglim" = .ok a.diffmaglim ∧
      optNum r "rb" = .ok a.rb ∧ (∀ q ∈ a.rb, 0 ≤ q ∧ q ≤ 1) ∧
      optNum r "drb" = .ok a.drb ∧ (∀ q ∈ a.drb, 0 ≤ q ∧ q ≤ 1) ∧
      getPrvList r = .ok a.prv_candidates ∧
      optStr r "v:fink_class" = .ok a.v__fink_class ∧
      optStr r "d:cdsxmatch" = .ok a.d__cdsxmatch ∧
      a.extra = extrasOf r := by
  constructor
  · intro h
    unfold ZTFAlert.validate at h
    simp only [bind_eq_ok, check_eq_ok] at h
    obtain ⟨o, ho, _, hol, c, hc, ra, hra, _, hrab, dec, hdec, _, hdecb,
      m, hm, s, hs, _, hsb, f, hf, _, hfb, j, hj, _, hjb, dml, hdml,
      rb, hrb, _, hrbb, drb, hdrb, _, hdrbb, prv, hprv, vf, hvf, dc, hdc, hok⟩ := h
    cases hok
    simp_all
  · rintro ⟨ho, hol, hc, hra, hrab, hdec, hdecb, hm, hs, hsb, hf, hfb, hj, hjb,
      hdml, hrb, hrbb, hdrb, hdrbb, hprv, hvf, hdc, hex⟩
    unfold ZTFAlert.validate
    simp only [bind_eq_ok, check_eq_ok]
    refine ⟨_, ho, ⟨⟩, hol, _, hc, _, hra, ⟨⟩, hrab, _, hdec, ⟨⟩, hdecb,
      _, hm, _, hs, ⟨⟩, hsb, _, hf, ⟨⟩, hfb, _, hj, ⟨⟩, hjb, _, hdml,
      _, hrb, ⟨⟩, hrbb, _, hdrb, ⟨⟩, hdrbb, _, hprv, _, hvf, _, hdc, ?_⟩
    cases a
    simp_all

/-! Lemmas about the processor loop and the write path. -/

theorem processSingleAlert_isOk (raw : RawRecord) (s : String)
    (sv : Option String) (pid : String) (now : Datetime) :
    (processSingleAlert raw s sv pid now).isOk = (ZTFAlert.validate raw).isOk := by
  unfold processSingleAlert
  cases ZTFAlert.validate raw <;>
    simp [Except.map, Except.isOk, Except.toBool]

theorem collectAlerts_fst (s : String) (sv : Option String) (pid : String)
    (now : Datetime) (raws : List RawRecord) : ∀ i,
    (collectAlerts s sv pid now i raws).1 =
      raws.filterMap fun r => (processSingleAlert r s sv pid now).toOption := by
  induction raws with
  | nil => intro i; rfl
  | cons hd tl ih =>
    intro i
    unfold collectAlerts
    cases h : processSingleAlert hd s sv pid now <;>
      simp [h, ih, Except.toOption]

theorem collectAlerts_snd_isEmpty (s : String) (sv : Option String)
    (pid : String) (now : Datetime) (raws : List RawRecord) : ∀ i,
    ((collectAlerts s sv pid now i raws).2.isEmpty = true ↔
      ∀ r ∈ raws, (ZTFAlert.validate r).isOk = true) := by
  induction raws with
  | nil => intro i; simp [collectAlerts]
  | cons hd tl ih =>
    intro i
    unfold collectAlerts
    cases hv : ZTFAlert.validate hd with
    | ok a =>
      simp [processSingleAlert, hv, Except.map, Except.isOk, Except.toBool,
        ih (i + 1)]
    | error e =>
      simp [processSingleAlert, hv, Except.map, Except.isOk, Except.toBool,
        ih (i + 1)]

theorem collectAlerts_fst_isEmpty (s : String) (sv : Option String)
    (pid : String) (now : Datetime) (raws : List RawRecord) : ∀ i,
    ((collectAlerts s sv pid now i raws).1.isEmpty = true ↔
      ∀ r ∈ raws, (ZTFAlert.validate r).isOk = false) := by
  induction raws with
  | nil => intro i; simp [collectAlerts]
  | cons hd tl ih =>
    intro i
    unfold collectAlerts
    cases hv : ZTFAlert.validate hd with
    | ok a =>
      simp [processSingleAlert, hv, Except.map, Except.isOk, Except.toBool,
        ih (i + 1)]
    | error e =>
      simp [processSingleAlert, hv, Except.map, Except.isOk, Except.toBool,
        ih (i + 1)]

theorem go_eq_filterMap (l : List RawRecord) :
    ZTFAlert.get_previous_candidates.go l =
      l.filterMap fun d => (PreviousCandidate.validate d).toOption := by
  induction l with
  | nil => rfl
  | cons hd tl ih =>
    unfold ZTFAlert.get_previous_candidates.go
    cases h : PreviousCandidate.validate hd <;> simp [h, ih, Except.toOption]

theorem get_previous_candidates_eq (a : ZTFAlert) :
    a.get_previous_candidates =
      (a.prv_candidates.getD []).filterMap
        fun d => (PreviousCandidate.validate d).toOption := by
  unfold ZTFAlert.get_previous_candidates
  cases hp : a.prv_candidates with
  | none => rfl
  | some l =>
    cases l with
    | nil => rfl
    | cons hd tl => simp [go_eq_filterMap]

theorem flattenAll_error_of_mem {bs : List BronzeAlert} {b : BronzeAlert}
    {e : String} (hmem : b ∈ bs) (herr : b.to_flat_dict = .error e) :
    ∃ e', flattenAll bs = .error e' := by
  induction bs with
  | nil => cases hmem
  | cons hd tl ih =>
    rcases List.mem_cons.mp hmem with rfl | hmem'
    · exact ⟨e, by simp [flattenAll, herr, Bind.bind, Except.bind]⟩
    · cases hh : hd.to_flat_dict with
      | error e'' => exact ⟨e'', by simp [flattenAll, hh, Bind.bind, Except.bind]⟩
      | ok row =>
        obtain ⟨e', he'⟩ := ih hmem'
        exact ⟨e', by simp [flattenAll, hh, he', Bind.bind, Except.bind]⟩

/-! Arithmetic bridges for the Julian-date conversion. -/

theorem jd_sample_literal : (2460000.5 : ℚ) = mkRat 4920001 2 := by
  norm_num [mkRat, Rat.normalize]

theorem jdnOf_eq_floor (q : ℚ) : jdnOf q = ⌊q + 1 / 2⌋ := by
  have hdnz : (q.den : ℚ) ≠ 0 := (Nat.cast_pos.mpr q.den_pos).ne'
  have hnum : (q.num : ℚ) = q * (q.den : ℚ) := by
    have h := Rat.num_div_den q
    rw [div_eq_iff hdnz] at h
    exact h
  have hd2 : (((2 * q.den : ℕ)) : ℚ) ≠ 0 :=
    Nat.cast_ne_zero.mpr (by have := q.den_pos; omega)
  have hq : q + 1 / 2 =
      (((2 * q.num + (q.den : ℤ)) : ℤ) : ℚ) / (((2 * q.den : ℕ)) : ℚ) := by
    rw [eq_div_iff hd2]
    push_cast
    rw [hnum]
    ring
  rw [hq, Rat.floor_intCast_div_natCast]
  unfold jdnOf
  rw [Int.fdiv_eq_ediv _ (by positivity)]
  push_cast
  rfl

/-! Concrete sample inputs, mirroring the repository's test fixtures. -/

/-- A fully valid raw alert (the `create_sample_alert` fixture, with the
    rationals standing in for the float literals). -/
def sampleRecord : RawRecord :=
  [("objectId", .str "ZTF21aaxtctv"), ("candid", .int 1234567890),
   ("ra", .float (mkRat 96911 500)), ("dec", .float (mkRat 362 125)),
   ("magpsf", .float (mkRat 37 2)), ("sigmapsf", .float (mkRat 1 20)),
   ("fid", .int 1), ("jd", .float (mkRat 4920001 2)),
   ("diffmaglim", .float (mkRat 41 2)), ("rb", .float (mkRat 19 20)),
   ("drb", .float (mkRat 49 50)), ("v:fink_class", .str "SN candidate"),
   ("d:cdsxmatch", .str "Unknown"), ("custom_field", .str "custom_value")]

/-- An invalid raw alert: `objectId` only, all other required fields
    missing. -/
def invalidRecord : RawRecord := [("objectId", .str "ZTF21xxx")]

/-- A raw alert that is well-typed everywhere and has in-range coordinates,
    but carries a negative magnitude uncertainty. -/
def negSigmaRecord : RawRecord :=
  [("objectId", .str "ZTF21aaxtctv"), ("candid", .int 1234567890),
   ("ra", .float (mkRat 10 1)), ("dec", .float (mkRat 10 1)),
   ("magpsf", .float (mkRat 37 2)), ("sigmapsf", .float (mkRat (-1) 1)),
   ("fid", .int 1), ("jd", .float (mkRat 4920001 2))]

/-- A validated alert value with JD `2460000.5` (written as a literal so the
    claim's hypothesis is definitional). -/
def jdSampleAlert : ZTFAlert :=
  ⟨"ZTF21aaxtctv", some 1234567890, 10, 10, 18, mkRat 1 20, 1,
   (2460000.5 : ℚ), Option.none, Option.none, Option.none, Option.none,
   Option.none, Option.none, []⟩

/-- An alert whose JD lies far outside `datetime`'s representable years, so
    the calendar conversion fails. -/
def farFutureAlert : ZTFAlert :=
  ⟨"ZTF99zzzzzzz", Option.none, 10, 10, 18, mkRat 1 20, 1,
   mkRat 100000000 1, Option.none, Option.none, Option.none, Option.none,
   Option.none, Option.none, []⟩

/-- A validated alert value with integral JD, used as a neutral carrier. -/
def plainAlert : ZTFAlert :=
  ⟨"ZTF21aaxtctv", some 1234567890, 10, 10, 18, mkRat 1 20, 1,
   mkRat 2460001 1, Option.none, Option.none, Option.none, Option.none,
   Option.none, Option.none, []⟩

/-- A fixed wall-clock instant. -/
def sampleNow : Datetime := ⟨⟨2026, 1, 2⟩, "03:04:05"⟩

/-- The default configuration: parquet format, strict validation, and the
    resolved default bronze path. -/
def sampleCfg : Config := ⟨"data/bronze/alerts", .parquet, .strict⟩

/-- Empty storage: the output location does not exist yet. -/
def emptyStorage : Storage := ⟨[], []⟩

/-- Storage whose output location exists but holds one unreadable file. -/
def corruptStorage : Storage :=
  ⟨["data/bronze/alerts"],
   [⟨"data/bronze/alerts", "f0.parquet", .corrupt⟩]⟩

/-- A bronze alert whose audit payload contains a non-serializable value. -/
def badPayloadBronze : BronzeAlert :=
  BronzeAlert.create plainAlert sampleNow "fink_api" Option.none
    (some [("bad_field", PyVal.obj)]) (some "batch_001")

/-! Claim theorems. -/

/-- C5: for every Enriched Record the partition key is computed at
    construction by converting the alert's JD to a calendar date string
    (first conjunct and, the construction being a pure function of its
    inputs, fourth conjunct: the field is fixed once computed and repeated
    construction is deterministic); for JD `2460000.5` the derived string is
    `2023-02-25`, which has exactly 10 characters in `YYYY-MM-DD` form
    (second conjunct); when the conversion fails the ingestion timestamp's
    date is used instead (third conjunct). -/
theorem partition_key_once_at_construction (a : ZTFAlert) (now : Datetime)
    (src : String) (sv : Option String) (rp : Option RawRecord)
    (pid : Option String) :
    ((BronzeAlert.create a now src sv rp pid).observation_date =
       match jdToDate a.jd with
       | some d => formatDate d
       | Option.none => formatDate now.date) ∧
    (a.jd = 2460000.5 →
       (BronzeAlert.create a now src sv rp pid).observation_date =
         "2023-02-25" ∧
       (BronzeAlert.create a now src sv rp pid).observation_date.length = 10) ∧
    (jdToDate a.jd = Option.none →
       (BronzeAlert.create a now src sv rp pid).observation_date =
         formatDate now.date) ∧
    BronzeAlert.create a now src sv rp pid =
      BronzeAlert.create a now src sv rp pid := by
  refine ⟨rfl, ?_, ?_, rfl⟩
  · intro hjd
    have hdate : jdToDate a.jd = some ⟨2023, 2, 25⟩ := by
      rw [hjd, jd_sample_literal]; decide
    have hobs : (BronzeAlert.create a now src sv rp pid).observation_date =
        formatDate ⟨2023, 2, 25⟩ := by
      show (match jdToDate a.jd with
        | some d => formatDate d
        | Option.none => formatDate now.date) = formatDate ⟨2023, 2, 25⟩
      rw [hdate]
    constructor
    · rw [hobs]; decide
    · rw [hobs]; decide
  · intro hnone
    show (match jdToDate a.jd with
      | some d => formatDate d
      | Option.none => formatDate now.date) = formatDate now.date
    rw [hnone]

/-- Witness for C5 at JD `2460000.5` and at a JD whose conversion fails. -/
theorem partition_key_once_at_construction_witness :
    jdSampleAlert.jd = 2460000.5 ∧
    (BronzeAlert.create jdSampleAlert sampleNow "fink_api" Option.none
      Option.none Option.none).observation_date = "2023-02-25" ∧
    (BronzeAlert.create jdSampleAlert sampleNow "fink_api" Option.none
      Option.none Option.none).observation_date.length = 10 ∧
    jdToDate farFutureAlert.jd = Option.none ∧
    (BronzeAlert.create farFutureAlert sampleNow "fink_api" Option.none
      Option.none Option.none).observation_date = formatDate sampleNow.date :=
  ⟨rfl,
   ((partition_key_once_at_construction jdSampleAlert sampleNow "fink_api"
      Option.none Option.none Option.none).2.1 rfl).1,
   ((partition_key_once_at_construction jdSampleAlert sampleNow "fink_api"
      Option.none Option.none Option.none).2.1 rfl).2,
   by decide,
   (partition_key_once_at_construction farFutureAlert sampleNow "fink_api"
      Option.none Option.none Option.none).2.2.1 (by decide)⟩

/-- C6: for the empty input list, `process_alerts` returns a valid batch of
    count 0 under every validation mode and never raises. -/
theorem empty_input_empty_batch (cfg : Config) (source : String)
    (sv : Option String) (bid : Option String) (genId : String)
    (now : Datetime) :
    ∃ b, process_alerts cfg [] source sv bid genId now = .ok b ∧
      b.count = 0 :=
  ⟨_, rfl, rfl⟩

/-- C7: writing a batch of count 0 is a no-op: it returns the configured
    output location and leaves storage untouched. -/
theorem empty_batch_write_is_noop (st : Storage) (cfg : Config)
    (batch : AlertBatch) (now : Datetime) (pbd : Bool)
    (h : batch.count = 0) :
    write_batch st cfg batch now pbd = .ok (cfg.bronzePath, st) := by
  unfold write_batch
  simp [h]

/-- Witness for C7 on a concrete empty batch. -/
theorem empty_batch_write_is_noop_witness :
    AlertBatch.count ⟨[], "empty", sampleNow, Option.none⟩ = 0 ∧
    write_batch emptyStorage sampleCfg ⟨[], "empty", sampleNow, Option.none⟩
      sampleNow true = .ok (sampleCfg.bronzePath, emptyStorage) :=
  ⟨rfl, empty_batch_write_is_noop emptyStorage sampleCfg _ sampleNow true rfl⟩

/-- C9: read-back never raises (it is a total function into row lists); a
    missing output location yields the empty result, and so does any failure
    inside the underlying read. -/
theorem read_back_never_raises (st : Storage) (cfg : Config)
    (date : Option String) (lim : Option Nat) :
    (st.pathExists cfg.bronzePath = false →
       read_bronze_data st cfg date lim = []) ∧
    (∀ e, readRaw st cfg date = .error e →
       read_bronze_data st cfg date lim = []) := by
  constructor
  · intro h
    unfold read_bronze_data
    simp [h]
  · intro e h
    unfold read_bronze_data
    by_cases hex : st.pathExists cfg.bronzePath
    · simp [hex, h]
    · simp [hex]

/-- Witness for C9: empty storage and a corrupt-file storage. -/
theorem read_back_never_raises_witness :
    emptyStorage.pathExists sampleCfg.bronzePath = false ∧
    read_bronze_data emptyStorage sampleCfg Option.none Option.none = [] ∧
    readRaw corruptStorage sampleCfg Option.none = .error "corrupt file" ∧
    read_bronze_data corruptStorage sampleCfg Option.none Option.none = [] :=
  ⟨rfl,
   (read_back_never_raises emptyStorage sampleCfg Option.none Option.none).1 rfl,
   rfl,
   (read_back_never_raises corruptStorage sampleCfg Option.none
      Option.none).2 "corrupt file" rfl⟩

/-- C10: the flattened row's `num_previous_detections` equals the length of
    the alert's raw embedded-history list — zero when absent — and thus also
    counts the malformed entries that the lenient history parse drops (the
    parsed history is never longer). -/
theorem flat_row_counts_raw_history (b : BronzeAlert) (row : FlatRow)
    (h : b.to_flat_dict = .ok row) :
    row.num_previous_detections = (b.alert.prv_candidates.getD []).length ∧
    (b.alert.prv_candidates = Option.none →
       row.num_previous_detections = 0) ∧
    b.alert.get_previous_candidates.length ≤ row.num_previous_detections := by
  have hnum : row.num_previous_detections =
      (b.alert.prv_candidates.getD []).length := by
    unfold BronzeAlert.to_flat_dict at h
    split at h
    · cases h
    · cases h; rfl
  refine ⟨hnum, ?_, ?_⟩
  · intro hnone
    rw [hnum, hnone]
    rfl
  · rw [hnum, get_previous_candidates_eq]
    exact List.length_filterMap_le _ _

/-- An embedded history with one valid entry and one malformed entry
    (missing `jd`, filter index out of range). -/
def mixedHistory : List RawRecord :=
  [[("jd", .float (mkRat 4920001 2)), ("fid", .int 1)],
   [("fid", .int 7)]]

/-- The neutral alert carrying `mixedHistory`. -/
def historyAlert : ZTFAlert :=
  { plainAlert with prv_candidates := some mixedHistory }

/-- The enriched record of `historyAlert`. -/
def historyBronze : BronzeAlert :=
  BronzeAlert.create historyAlert sampleNow "fink_api" Option.none
    Option.none (some "batch_001")

/-- Witness for C10: an alert whose history holds one valid and one
    malformed entry flattens to a row counting both. -/
theorem flat_row_counts_raw_history_witness :
    ∃ row, historyBronze.to_flat_dict = .ok row ∧
      row.num_previous_detections = 2 ∧
      historyBronze.alert.get_previous_candidates.length = 1 := by
  obtain ⟨row, hrow⟩ : ∃ row, historyBronze.to_flat_dict = .ok row := ⟨_, rfl⟩
  have h := flat_row_counts_raw_history historyBronze row hrow
  refine ⟨row, hrow, ?_, rfl⟩
  rw [h.1]
  rfl

/-- C1: under strict validation, `process_alerts` raises a
    `BronzeProcessingError` exactly when at least one record was supplied
    and every record failed validation (first conjunct); whatever it returns
    contains exactly the successfully validated records in order (second
    conjunct); in particular a partially failed batch returns the successes
    without raising (third conjunct). -/
theorem strict_raises_iff_all_fail (cfg : Config) (raws : List RawRecord)
    (source : String) (sv : Option String) (bid : Option String)
    (genId : String) (now : Datetime) (hmode : cfg.mode = .strict) :
    ((∃ e, process_alerts cfg raws source sv bid genId now = .error e) ↔
       (raws ≠ [] ∧ ∀ r ∈ raws, (ZTFAlert.validate r).isOk = false)) ∧
    (∀ b, process_alerts cfg raws source sv bid genId now = .ok b →
       b.alerts = raws.filterMap fun r =>
         (processSingleAlert r source sv (bid.getD genId) now).toOption) ∧
    ((∃ r ∈ raws, (ZTFAlert.validate r).isOk = true) →
       ∃ b, process_alerts cfg raws source sv bid genId now = .ok b ∧
         b.alerts = raws.filterMap fun r =>
           (processSingleAlert r source sv (bid.getD genId) now).toOption) := by
  have h2 := collectAlerts_snd_isEmpty source sv (bid.getD genId) now raws 0
  have h1 := collectAlerts_fst_isEmpty source sv (bid.getD genId) now raws 0
  have hf := collectAlerts_fst source sv (bid.getD genId) now raws 0
  unfold process_alerts
  by_cases hc :
      (¬ (collectAlerts source sv (bid.getD genId) now 0 raws).2.isEmpty ∧
       cfg.mode = .strict ∧
       (collectAlerts source sv (bid.getD genId) now 0 raws).1.isEmpty)
  · rw [if_pos hc]
    obtain ⟨hne, _, hempty⟩ := hc
    have hall : ∀ r ∈ raws, (ZTFAlert.validate r).isOk = false := h1.mp hempty
    refine ⟨?_, ?_, ?_⟩
    · constructor
      · intro _
        refine ⟨?_, hall⟩
        rintro rfl
        exact hne rfl
      · intro _
        exact ⟨_, rfl⟩
    · intro b hb
      cases hb
    · rintro ⟨r, hr, hok⟩
      rw [hall r hr] at hok
      cases hok
  · rw [if_neg hc]
    refine ⟨?_, ?_, ?_⟩
    · constructor
      · rintro ⟨e, he⟩
        cases he
      · rintro ⟨hne, hall⟩
        exfalso
        apply hc
        refine ⟨?_, hmode, h1.mpr hall⟩
        intro hsnd
        obtain ⟨r0, hr0⟩ := List.exists_mem_of_ne_nil raws hne
        have := h2.mp hsnd r0 hr0
        rw [hall r0 hr0] at this
        cases this
    · intro b hb
      cases hb
      simpa using hf
    · intro _
      exact ⟨_, rfl, by simpa using hf⟩

/-- Witness for C1: a mixed batch (one valid, one invalid record) returns
    just the valid record's enrichment; a batch of two invalid records
    raises. -/
theorem strict_raises_iff_all_fail_witness :
    (∃ b, process_alerts sampleCfg [sampleRecord, invalidRecord] "fink_api"
        Option.none Option.none "gen_1" sampleNow = .ok b ∧
      b.alerts = [sampleRecord, invalidRecord].filterMap fun r =>
        (processSingleAlert r "fink_api" Option.none "gen_1"
          sampleNow).toOption) ∧
    (∃ e, process_alerts sampleCfg [invalidRecord, invalidRecord] "fink_api"
        Option.none Option.none "gen_1" sampleNow = .error e) :=
  ⟨(strict_raises_iff_all_fail sampleCfg [sampleRecord, invalidRecord]
      "fink_api" Option.none Option.none "gen_1" sampleNow rfl).2.2
      ⟨sampleRecord, List.mem_cons_self _ _, by decide⟩,
   (strict_raises_iff_all_fail sampleCfg [invalidRecord, invalidRecord]
      "fink_api" Option.none Option.none "gen_1" sampleNow rfl).1.mpr
      ⟨by simp, by decide⟩⟩

/-! Field getters only look at their own key, so overwriting a different key
    leaves them unchanged. -/

theorem reqStr_setKey_ne {r : RawRecord} {k k' : String} {v : PyVal}
    (h : k' ≠ k) : reqStr (setKey r k v) k' = reqStr r k' := by
  unfold reqStr; rw [lookup_setKey_ne h]

theorem reqNum_setKey_ne {r : RawRecord} {k k' : String} {v : PyVal}
    (h : k' ≠ k) : reqNum (setKey r k v) k' = reqNum r k' := by
  unfold reqNum; rw [lookup_setKey_ne h]

theorem reqInt_setKey_ne {r : RawRecord} {k k' : String} {v : PyVal}
    (h : k' ≠ k) : reqInt (setKey r k v) k' = reqInt r k' := by
  unfold reqInt; rw [lookup_setKey_ne h]

theorem optNum_setKey_ne {r : RawRecord} {k k' : String} {v : PyVal}
    (h : k' ≠ k) : optNum (setKey r k v) k' = optNum r k' := by
  unfold optNum; rw [lookup_setKey_ne h]

theorem optInt_setKey_ne {r : RawRecord} {k k' : String} {v : PyVal}
    (h : k' ≠ k) : optInt (setKey r k v) k' = optInt r k' := by
  unfold optInt; rw [lookup_setKey_ne h]

theorem optStr_setKey_ne {r : RawRecord} {k k' : String} {v : PyVal}
    (h : k' ≠ k) : optStr (setKey r k v) k' = optStr r k' := by
  unfold optStr; rw [lookup_setKey_ne h]

theorem getPrvList_setKey_ne {r : RawRecord} {k : String} {v : PyVal}
    (h : "prv_candidates" ≠ k) :
    getPrvList (setKey r k v) = getPrvList r := by
  unfold getPrvList; rw [lookup_setKey_ne h]

theorem getPrvList_setKey_self {r : RawRecord} {ds : List RawRecord} :
    getPrvList (setKey r "prv_candidates"
      (PyVal.list (ds.map PyVal.dict))) = .ok (some ds) := by
  unfold getPrvList
  rw [lookup_setKey_self]
  simp [asDicts_map_dict, Except.map]

/-- C4: for every alert that validates, replacing the embedded history with
    any list of dicts whatsoever — malformed entries included — still
    validates (first conjunct: a malformed history entry never fails the
    alert), and the parsed history consists of exactly the entries that
    individually validate, in order, the rest being dropped silently
    (second conjunct). -/
theorem malformed_history_never_fails_alert (r : RawRecord) (a : ZTFAlert)
    (h : ZTFAlert.validate r = .ok a) :
    (∀ ds : List RawRecord,
       (ZTFAlert.validate (setKey r "prv_candidates"
          (PyVal.list (ds.map PyVal.dict)))).isOk = true) ∧
    a.get_previous_candidates =
      (a.prv_candidates.getD []).filterMap
        (fun d => (PreviousCandidate.validate d).toOption) := by
  refine ⟨?_, get_previous_candidates_eq a⟩
  intro ds
  obtain ⟨ho, hol, hc, hra, hrab, hdec, hdecb, hm, hs, hsb, hf, hfb, hj, hjb,
    hdml, hrb, hrbb, hdrb, hdrbb, hprv, hvf, hdc, hex⟩ :=
    ZTFAlert.validate_ok_iff.mp h
  rw [isOk_iff]
  refine ⟨{ a with
      prv_candidates := some ds,
      extra := extrasOf (setKey r "prv_candidates"
        (PyVal.list (ds.map PyVal.dict))) }, ?_⟩
  apply ZTFAlert.validate_ok_iff.mpr
  rw [reqStr_setKey_ne (show "objectId" ≠ "prv_candidates" by decide),
      optInt_setKey_ne (show "candid" ≠ "prv_candidates" by decide),
      reqNum_setKey_ne (show "ra" ≠ "prv_candidates" by decide),
      reqNum_setKey_ne (show "dec" ≠ "prv_candidates" by decide),
      reqNum_setKey_ne (show "magpsf" ≠ "prv_candidates" by decide),
      reqNum_setKey_ne (show "sigmapsf" ≠ "prv_candidates" by decide),
      reqInt_setKey_ne (show "fid" ≠ "prv_candidates" by decide),
      reqNum_setKey_ne (show "jd" ≠ "prv_candidates" by decide),
      optNum_setKey_ne (show "diffmaglim" ≠ "prv_candidates" by decide),
      optNum_setKey_ne (show "rb" ≠ "prv_candidates" by decide),
      optNum_setKey_ne (show "drb" ≠ "prv_candidates" by decide),
      getPrvList_setKey_self,
      optStr_setKey_ne (show "v:fink_class" ≠ "prv_candidates" by decide),
      optStr_setKey_ne (show "d:cdsxmatch" ≠ "prv_candidates" by decide)]
  exact ⟨ho, hol, hc, hra, hrab, hdec, hdecb, hm, hs, hsb, hf, hfb, hj, hjb,
    hdml, hrb, hrbb, hdrb, hdrbb, rfl, hvf, hdc, rfl⟩

/-- Witness for C4: the valid sample record still validates after its
    history is replaced by a mix of one valid and one malformed entry. -/
theorem malformed_history_never_fails_alert_witness :
    (ZTFAlert.validate (setKey sampleRecord "prv_candidates"
        (PyVal.list (mixedHistory.map PyVal.dict)))).isOk = true ∧
    ∃ a, ZTFAlert.validate sampleRecord = .ok a ∧
      a.get_previous_candidates =
        (a.prv_candidates.getD []).filterMap
          (fun d => (PreviousCandidate.validate d).toOption) := by
  obtain ⟨a, ha⟩ : ∃ a, ZTFAlert.validate sampleRecord = .ok a := ⟨_, rfl⟩
  exact ⟨(malformed_history_never_fails_alert sampleRecord a ha).1 mixedHistory,
    a, ha, (malformed_history_never_fails_alert sampleRecord a ha).2⟩

/-- C8: for every record that validates, every unrecognized key is retained
    on the alert's extra mapping with its original value (first conjunct),
    and adding an unrecognized key never causes rejection (second
    conjunct). -/
theorem extra_fields_preserved (r : RawRecord) (a : ZTFAlert)
    (h : ZTFAlert.validate r = .ok a) :
    (∀ k v, lookup r k = some v → knownKeys.contains k = false →
       lookup a.extra k = some v) ∧
    (∀ k v, knownKeys.contains k = false →
       (ZTFAlert.validate (setKey r k v)).isOk = true) := by
  obtain ⟨ho, hol, hc, hra, hrab, hdec, hdecb, hm, hs, hsb, hf, hfb, hj, hjb,
    hdml, hrb, hrbb, hdrb, hdrbb, hprv, hvf, hdc, hex⟩ :=
    ZTFAlert.validate_ok_iff.mp h
  constructor
  · intro k v hlk hkc
    rw [hex]
    unfold extrasOf
    rw [lookup_filter (p := fun p => !(knownKeys.contains p.1))
      (by intro w; show (!(knownKeys.contains k)) = true; rw [hkc]; rfl)]
    exact hlk
  · intro k v hkc
    have hne : ∀ key : String, knownKeys.contains key = true → key ≠ k := by
      intro key hkey hek
      rw [hek, hkc] at hkey
      cases hkey
    rw [isOk_iff]
    refine ⟨{ a with extra := extrasOf (setKey r k v) }, ?_⟩
    apply ZTFAlert.validate_ok_iff.mpr
    rw [reqStr_setKey_ne (hne "objectId" (by decide)),
        optInt_setKey_ne (hne "candid" (by decide)),
        reqNum_setKey_ne (hne "ra" (by decide)),
        reqNum_setKey_ne (hne "dec" (by decide)),
        reqNum_setKey_ne (hne "magpsf" (by decide)),
        reqNum_setKey_ne (hne "sigmapsf" (by decide)),
        reqInt_setKey_ne (hne "fid" (by decide)),
        reqNum_setKey_ne (hne "jd" (by decide)),
        optNum_setKey_ne (hne "diffmaglim" (by decide)),
        optNum_setKey_ne (hne "rb" (by decide)),
        optNum_setKey_ne (hne "drb" (by decide)),
        getPrvList_setKey_ne (hne "prv_candidates" (by decide)),
        optStr_setKey_ne (hne "v:fink_class" (by decide)),
        optStr_setKey_ne (hne "d:cdsxmatch" (by decide))]
    exact ⟨ho, hol, hc, hra, hrab, hdec, hdecb, hm, hs, hsb, hf, hfb, hj, hjb,
      hdml, hrb, hrbb, hdrb, hdrbb, hprv, hvf, hdc, rfl⟩

/-- Witness for C8: the sample record's `custom_field` is unrecognized and
    survives onto the validated alert; adding another unknown key keeps the
    record valid. -/
theorem extra_fields_preserved_witness :
    lookup sampleRecord "custom_field" = some (.str "custom_value") ∧
    knownKeys.contains "custom_field" = false ∧
    (∃ a, ZTFAlert.validate sampleRecord = .ok a ∧
       lookup a.extra "custom_field" = some (.str "custom_value")) ∧
    (ZTFAlert.validate
       (setKey sampleRecord "extra_key" (.int 42))).isOk = true := by
  obtain ⟨a, ha⟩ : ∃ a, ZTFAlert.validate sampleRecord = .ok a := ⟨_, rfl⟩
  exact ⟨rfl, by decide,
    ⟨a, ha, (extra_fields_preserved sampleRecord a ha).1 "custom_field"
      (.str "custom_value") rfl (by decide)⟩,
    (extra_fields_preserved sampleRecord a ha).2 "extra_key" (.int 42)
      (by decide)⟩

/-- A successful `Except` computation has a unique result. -/
theorem ok_inj {ε α : Type} {e : Except ε α} {x y : α}
    (h1 : e = .ok x) (h2 : e = .ok y) : x = y := by
  rw [h1] at h2
  cases h2
  rfl

/-- C2 counterexample: `negSigmaRecord` has every required field present
    with the correct type and in-range coordinates (ra = dec = 10), yet
    validation fails, because its magnitude uncertainty is negative — so
    success is not equivalent to the coordinate bounds alone. -/
theorem coords_iff_claim_fails_at_neg_sigma :
    reqStr negSigmaRecord "objectId" = .ok "ZTF21aaxtctv" ∧
    optInt negSigmaRecord "candid" = .ok (some 1234567890) ∧
    reqNum negSigmaRecord "ra" = .ok (mkRat 10 1) ∧
    reqNum negSigmaRecord "dec" = .ok (mkRat 10 1) ∧
    reqNum negSigmaRecord "magpsf" = .ok (mkRat 37 2) ∧
    reqNum negSigmaRecord "sigmapsf" = .ok (mkRat (-1) 1) ∧
    reqInt negSigmaRecord "fid" = .ok 1 ∧
    reqNum negSigmaRecord "jd" = .ok (mkRat 4920001 2) ∧
    (0 ≤ mkRat 10 1 ∧ mkRat 10 1 < 360) ∧
    (-90 ≤ mkRat 10 1 ∧ mkRat 10 1 ≤ 90) ∧
    (ZTFAlert.validate negSigmaRecord).isOk = false :=
  ⟨rfl, rfl, rfl, rfl, rfl, rfl, rfl, rfl, by decide, by decide, rfl⟩

/-- C2 (amended): for every raw record whose fields are present, well typed
    and satisfy every non-coordinate constraint (identifier length ≥ 3,
    uncertainty ≥ 0, filter in 1..3, JD above the epoch, confidence scores
    in [0,1] when present), validation succeeds exactly when the right
    ascension lies in [0,360) and the declination in [-90,90], and on
    success the alert's fields equal the inputs (first conjunct).
    Unconditionally, any record whose right ascension is ≥ 360 or whose
    declination is > 90 fails validation (second and third conjuncts:
    out-of-range values are rejected, never clamped). -/
theorem validation_coordinate_bounds :
    (∀ (r : RawRecord) (o : String) (c : Option Int) (ra dec m s : ℚ)
       (f : Int) (j : ℚ) (dml rb drb : Option ℚ)
       (prv : Option (List RawRecord)) (vf dc : Option String),
       reqStr r "objectId" = .ok o → 3 ≤ o.length →
       optInt r "candid" = .ok c →
       reqNum r "ra" = .ok ra → reqNum r "dec" = .ok dec →
       reqNum r "magpsf" = .ok m →
       reqNum r "sigmapsf" = .ok s → 0 ≤ s →
       reqInt r "fid" = .ok f → 1 ≤ f → f ≤ 3 →
       reqNum r "jd" = .ok j → 2400000 < j →
       optNum r "diffmaglim" = .ok dml →
       optNum r "rb" = .ok rb → (∀ q ∈ rb, 0 ≤ q ∧ q ≤ 1) →
       optNum r "drb" = .ok drb → (∀ q ∈ drb, 0 ≤ q ∧ q ≤ 1) →
       getPrvList r = .ok prv →
       optStr r "v:fink_class" = .ok vf →
       optStr r "d:cdsxmatch" = .ok dc →
       (((ZTFAlert.validate r).isOk = true) ↔
          (0 ≤ ra ∧ ra < 360 ∧ -90 ≤ dec ∧ dec ≤ 90)) ∧
       (∀ a, ZTFAlert.validate r = .ok a →
          a.objectId = o ∧ a.candid = c ∧ a.ra = ra ∧ a.dec = dec ∧
          a.magpsf = m ∧ a.sigmapsf = s ∧ a.fid = f ∧ a.jd = j ∧
          a.diffmaglim = dml ∧ a.rb = rb ∧ a.drb = drb ∧
          a.prv_candidates = prv ∧ a.v__fink_class = vf ∧
          a.d__cdsxmatch = dc)) ∧
    (∀ (r : RawRecord) (q : ℚ), reqNum r "ra" = .ok q → 360 ≤ q →
       (ZTFAlert.validate r).isOk = false) ∧
    (∀ (r : RawRecord) (q : ℚ), reqNum r "dec" = .ok q → 90 < q →
       (ZTFAlert.validate r).isOk = false) := by
  refine ⟨?_, ?_, ?_⟩
  · intro r o c ra dec m s f j dml rb drb prv vf dc ho hol hc hra hdec hm hs
      hsb hf hf1 hf3 hj hjb hdml hrb hrbb hdrb hdrbb hprv hvf hdc
    constructor
    · constructor
      · intro hok
        rw [isOk_iff] at hok
        obtain ⟨a, ha⟩ := hok
        obtain ⟨_, _, _, hra', hrab, hdec', hdecb, _⟩ :=
          ZTFAlert.validate_ok_iff.mp ha
        have e1 := ok_inj hra' hra
        have e2 := ok_inj hdec' hdec
        rw [e1] at hrab
        rw [e2] at hdecb
        exact ⟨hrab.1, hrab.2, hdecb.1, hdecb.2⟩
      · rintro ⟨h0, h360, h90l, h90r⟩
        rw [isOk_iff]
        refine ⟨⟨o, c, ra, dec, m, s, f, j, dml, rb, drb, prv, vf, dc,
          extrasOf r⟩, ZTFAlert.validate_ok_iff.mpr ?_⟩
        exact ⟨ho, hol, hc, hra, ⟨h0, h360⟩, hdec, ⟨h90l, h90r⟩, hm, hs, hsb,
          hf, ⟨hf1, hf3⟩, hj, hjb, hdml, hrb, hrbb, hdrb, hdrbb, hprv, hvf,
          hdc, rfl⟩
    · intro a ha
      obtain ⟨ho', _, hc', hra', _, hdec', _, hm', hs', _, hf', _, hj', _,
        hdml', hrb', _, hdrb', _, hprv', hvf', hdc', _⟩ :=
        ZTFAlert.validate_ok_iff.mp ha
      exact ⟨ok_inj ho' ho, ok_inj hc' hc, ok_inj hra' hra, ok_inj hdec' hdec,
        ok_inj hm' hm, ok_inj hs' hs, ok_inj hf' hf, ok_inj hj' hj,
        ok_inj hdml' hdml, ok_inj hrb' hrb, ok_inj hdrb' hdrb,
        ok_inj hprv' hprv, ok_inj hvf' hvf, ok_inj hdc' hdc⟩
  · intro r q hq h360
    cases hv : ZTFAlert.validate r with
    | error e => rfl
    | ok a =>
      exfalso
      obtain ⟨_, _, _, hra', hrab, _⟩ := ZTFAlert.validate_ok_iff.mp hv
      have := ok_inj hra' hq
      rw [this] at hrab
      exact absurd hrab.2 (not_lt.mpr h360)
  · intro r q hq h90
    cases hv : ZTFAlert.validate r with
    | error e => rfl
    | ok a =>
      exfalso
      obtain ⟨_, _, _, _, _, hdec', hdecb, _⟩ := ZTFAlert.validate_ok_iff.mp hv
      have := ok_inj hdec' hq
      rw [this] at hdecb
      exact absurd hdecb.2 (not_le.mpr h90)

/-- Witness for C2 (amended), at the valid sample record (coordinates in
    range, validation succeeds) and at records with ra = 400 or
    dec = 100 (validation fails). -/
theorem validation_coordinate_bounds_witness :
    (ZTFAlert.validate sampleRecord).isOk = true ∧
    (ZTFAlert.validate (setKey sampleRecord "ra"
       (.float (mkRat 400 1)))).isOk = false ∧
    (ZTFAlert.validate (setKey sampleRecord "dec"
       (.float (mkRat 100 1)))).isOk = false := by
  refine ⟨?_, ?_, ?_⟩
  · exact (validation_coordinate_bounds.1 sampleRecord "ZTF21aaxtctv"
      (some 1234567890) (mkRat 96911 500) (mkRat 362 125) (mkRat 37 2)
      (mkRat 1 20) 1 (mkRat 4920001 2) (some (mkRat 41 2))
      (some (mkRat 19 20)) (some (mkRat 49 50)) Option.none
      (some "SN candidate") (some "Unknown") rfl (by decide) rfl rfl rfl rfl
      rfl (by decide) rfl (by decide) (by decide) rfl (by decide) rfl rfl
      (by decide) rfl (by decide) rfl rfl rfl).1.mpr (by decide)
  · exact validation_coordinate_bounds.2.1 _ (mkRat 400 1) rfl (by decide)
  · exact validation_coordinate_bounds.2.2 _ (mkRat 100 1) rfl (by decide)

/-- C3 counterexample: an enriched record whose audit payload holds a
    non-serializable object.  Flattening does not complete — it raises —
    and writing a batch containing the record aborts with a `WriteError`
    instead of storing a null audit column. -/
theorem serialization_claim_fails_at_bad_payload :
    badPayloadBronze.raw_payload = some [("bad_field", PyVal.obj)] ∧
    serializable (.dict [("bad_field", PyVal.obj)]) = false ∧
    badPayloadBronze.to_flat_dict.isOk = false ∧
    (∃ we, write_batch emptyStorage sampleCfg
       ⟨[badPayloadBronze], "batch_001", sampleNow, Option.none⟩
       sampleNow true = .error we) :=
  ⟨rfl, rfl, rfl, ⟨_, rfl⟩⟩

/-- C3 (amended): a present, non-empty audit payload that fails to
    serialize makes `to_flat_dict` raise, and `write_batch` on any batch
    containing that record aborts with a `WriteError` — the null audit
    column is reserved for records whose payload is absent or empty, whose
    flattening succeeds with a null `raw_payload_json` (third conjunct). -/
theorem unserializable_payload_aborts_write (b : BronzeAlert) :
    (∀ p, b.raw_payload = some p → p.isEmpty = false →
       serializable (.dict p) = false →
       (b.to_flat_dict = .error "Object is not JSON serializable") ∧
       (∀ st cfg (batch : AlertBatch) now pbd, b ∈ batch.alerts →
          ∃ we, write_batch st cfg batch now pbd = .error we)) ∧
    ((b.raw_payload = Option.none ∨ b.raw_payload = some []) →
       ∃ row, b.to_flat_dict = .ok row ∧
         row.raw_payload_json = Option.none) := by
  constructor
  · intro p hp hne hser
    have hflat : b.to_flat_dict = .error "Object is not JSON serializable" := by
      unfold BronzeAlert.to_flat_dict
      rw [hp]
      simp [hne, jsonDumps, hser, Except.map]
    refine ⟨hflat, ?_⟩
    intro st cfg batch now pbd hmem
    obtain ⟨e', he⟩ := flattenAll_error_of_mem hmem hflat
    unfold write_batch
    have hcount : ¬ batch.count = 0 := by
      unfold AlertBatch.count
      intro h0
      rw [List.length_eq_zero] at h0
      rw [h0] at hmem
      cases hmem
    rw [if_neg hcount, he]
    exact ⟨_, rfl⟩
  · intro hp
    unfold BronzeAlert.to_flat_dict
    rcases hp with hp | hp <;> rw [hp]
    · exact ⟨_, rfl, rfl⟩
    · exact ⟨_, rfl, rfl⟩

/-- Witness for C3 (amended), at the concrete bad-payload record and at a
    record with no payload. -/
theorem unserializable_payload_aborts_write_witness :
    badPayloadBronze.to_flat_dict = .error "Object is not JSON serializable" ∧
    (∃ we, write_batch emptyStorage sampleCfg
       ⟨[badPayloadBronze], "batch_001", sampleNow, Option.none⟩
       sampleNow true = .error we) ∧
    (∃ row, (BronzeAlert.create plainAlert sampleNow "fink_api" Option.none
       Option.none (some "batch_001")).to_flat_dict = .ok row ∧
       row.raw_payload_json = Option.none) := by
  have h := unserializable_payload_aborts_write badPayloadBronze
  have h1 := h.1 [("bad_field", PyVal.obj)] rfl rfl rfl
  refine ⟨h1.1, ?_, ?_⟩
  · exact h1.2 emptyStorage sampleCfg
      ⟨[badPayloadBronze], "batch_001", sampleNow, Option.none⟩ sampleNow true
      (List.mem_cons_self _ _)
  · exact (unserializable_payload_aborts_write
      (BronzeAlert.create plainAlert sampleNow "fink_api" Option.none
        Option.none (some "batch_001"))).2 (Or.inl rfl)

end AGD
